import Mathlib

/-!
Verification of the jira-epic-manager repository: a shallow embedding of the
issue-creation orchestration workflow (src/config.py, src/epic_manager.py,
src/schema.py, src/exceptions.py) and proofs of its specified properties.

The remote tracker (the Jira HTTP client) is modelled as an oracle
`JiraEnv : Nat → CreateResult` giving the outcome of the n-th issue-creation
call made by an orchestrator; the orchestrator threads a `CallState` that
records the call index, the full ordered trace of issue-creation requests
issued, and the log events emitted.  Python exceptions become `Except`
results; Python's `None`-able strings become `Option String`; the Python
`dict` built by `create_stories` becomes an insertion-ordered association
list with last-write-wins update (`dictInsert`), matching dict semantics.
-/

namespace JiraEpicManager

/-- Model Task from src/schema.py: summary, description, optional assignee. -/
structure Task where
  summary : String
  description : String
  assignee_id : Option String
deriving Repr, DecidableEq

/-- Model Story from src/schema.py: summary, description, optional task
list (`tasks: list[Task] | None`), optional assignee. -/
structure Story where
  summary : String
  description : String
  tasks : Option (List Task)
  assignee_id : Option String
deriving Repr, DecidableEq

/-- Settings Config from src/config.py: the six required settings fields. -/
structure Config where
  jira_project : String
  jira_epic_key : String
  jira_email : String
  jira_token : String
  jira_host : String
  jira_id : String
deriving Repr, DecidableEq

/-- Property Config.jira_url from src/config.py. -/
def Config.jira_url (c : Config) : String :=
  "https://" ++ c.jira_host ++ "/"

/-- The configuration error raised by the model validator in src/config.py
(`JiraEpicProjectMismatchError` from src/exceptions.py, the
"epic/project key mismatch" kind of configuration error). -/
inductive ConfigError where
  | epicProjectMismatch (epic_key : String) (project_key : String)
deriving Repr, DecidableEq

/-- Characters before the first `-`: the value of Python `s.split("-")[0]`
(`s.split("-")` always has the text before the first separator as element 0,
the whole string when no `-` occurs). -/
def beforeDash : List Char → List Char
  | [] => []
  | c :: cs => if c = '-' then [] else c :: beforeDash cs

/-- Python `s.split("-")[0]` as a String-level function. -/
def splitHead (s : String) : String :=
  String.mk (beforeDash s.toList)

/-- Validator Config.validate_project_and_epic_key from src/config.py:
`epic_key_prefix = self.jira_epic_key.split("-")[0]`, raise on mismatch. -/
def validate_project_and_epic_key (c : Config) : Except ConfigError Config :=
  let epicHead := splitHead c.jira_epic_key
  if epicHead ≠ c.jira_project then
    .error (.epicProjectMismatch c.jira_epic_key c.jira_project)
  else
    .ok c

/-- Settings construction: populate the fields, then run the model
validator (pydantic runs `validate_project_and_epic_key` after field
validation, so construction fails iff the validator raises). -/
def mkConfig (project epicKey email token host defaultId : String) :
    Except ConfigError Config :=
  validate_project_and_epic_key
    { jira_project := project
      jira_epic_key := epicKey
      jira_email := email
      jira_token := token
      jira_host := host
      jira_id := defaultId }

/-- Outcome of one read of the configured epic (`jira.issue(...)` in
`_verify_epic_exists`): success, or one of the failure modes the spec names
(not-found, auth failure, network failure), all of which surface in Python
as an exception from the client call. -/
inductive ReadResult where
  | found
  | notFound
  | authFailure
  | networkFailure
deriving Repr, DecidableEq

/-- Error JiraEpicNotFoundError from src/exceptions.py, carrying the epic key. -/
inductive EpicError where
  | epicNotFound (epic_key : String)
deriving Repr, DecidableEq

/-- The orchestrator object: after `__init__` it holds the settings (the
client handle is a function of the settings and carries no further state). -/
structure JiraEpic where
  config : Config
deriving Repr, DecidableEq

/-- Method JiraEpic._verify_epic_exists from src/epic_manager.py: one read of the
configured epic; any exception is collapsed into `JiraEpicNotFoundError`. -/
def verify_epic_exists (epic_key : String) (r : ReadResult) :
    Except EpicError Unit :=
  match r with
  | .found => .ok ()
  | .notFound => .error (.epicNotFound epic_key)
  | .authFailure => .error (.epicNotFound epic_key)
  | .networkFailure => .error (.epicNotFound epic_key)

/-- Constructor JiraEpic.__init__ from src/epic_manager.py: store settings, set up the
client, then verify the epic; a verification error aborts construction. -/
def JiraEpic.init (c : Config) (r : ReadResult) : Except EpicError JiraEpic :=
  match verify_epic_exists c.jira_epic_key r with
  | .ok _ => .ok { config := c }
  | .error e => .error e

/-- The fields dictionary built by `JiraEpic._build_issue_fields`
(src/epic_manager.py): project key, summary, description, issue type,
parent key, assignee id. -/
structure IssueFields where
  project : String
  summary : String
  description : String
  issuetype : String
  parent : String
  assignee : String
deriving Repr, DecidableEq

/-- Outcome of one `jira.create_issue` call: the created issue key, an
`HTTPError`, or any other exception. -/
inductive CreateResult where
  | ok (key : String)
  | httpError (msg : String)
  | otherError (msg : String)
deriving Repr, DecidableEq

/-- One emitted log record with its level (`logger.exception` logs at error
level). -/
inductive LogEvent where
  | info (msg : String)
  | warn (msg : String)
  | err (msg : String)
deriving Repr, DecidableEq

/-- Observable state threaded through an orchestrator's issue-creation
calls: the index of the next `create_issue` call, the ordered trace of all
issue-creation requests issued so far, and the emitted log records. -/
structure CallState where
  idx : Nat
  trace : List IssueFields
  logs : List LogEvent
deriving Repr, DecidableEq

/-- The state of a fresh orchestrator before any creation call. -/
def CallState.initial : CallState :=
  { idx := 0, trace := [], logs := [] }

/-- The remote tracker as an oracle: the outcome of the n-th
`jira.create_issue` call. -/
def JiraEnv : Type :=
  Nat → CreateResult

/-- One `jira.create_issue(fields=...)` call: records the request in the
trace and returns the oracle's outcome for this call index. -/
def jiraCreateIssue (env : JiraEnv) (st : CallState) (fields : IssueFields) :
    CreateResult × CallState :=
  (env st.idx, { st with idx := st.idx + 1, trace := st.trace ++ [fields] })

/-- Append an info-level log record. -/
def logInfo (st : CallState) (m : String) : CallState :=
  { st with logs := st.logs ++ [.info m] }

/-- Append a warning-level log record. -/
def logWarn (st : CallState) (m : String) : CallState :=
  { st with logs := st.logs ++ [.warn m] }

/-- Append an error-level log record (`logger.exception`). -/
def logErr (st : CallState) (m : String) : CallState :=
  { st with logs := st.logs ++ [.err m] }

/-- Method JiraEpic._get_assignee_id: `assignee_id or self.config.jira_id`.
Python `or` falls back when the left side is `None` or falsy, so the empty
string also falls back to the configured default. -/
def JiraEpic.get_assignee_id (j : JiraEpic) (assignee_id : Option String) :
    String :=
  match assignee_id with
  | none => j.config.jira_id
  | some s => if s = "" then j.config.jira_id else s

/-- Method JiraEpic._build_issue_fields from src/epic_manager.py. -/
def JiraEpic.build_issue_fields (j : JiraEpic)
    (summary description issue_type parent_key : String)
    (assignee_id : Option String) : IssueFields :=
  { project := j.config.jira_project
    summary := summary
    description := description
    issuetype := issue_type
    parent := parent_key
    assignee := j.get_assignee_id assignee_id }

/-- Error StoryCreationError from src/exceptions.py: the story summary and the
optional original error (present only for the HTTP-error translation). -/
inductive StoryError where
  | storyCreationError (story_summary : String) (original_error : Option String)
deriving Repr, DecidableEq

/-- Method JiraEpic.create_story_within_epic from src/epic_manager.py: build the
Story-type request parented to the configured epic, submit it; on success
return the new key, on `HTTPError` raise `StoryCreationError` carrying the
original error, on any other exception raise `StoryCreationError` without
the original error. -/
def JiraEpic.create_story_within_epic (j : JiraEpic) (env : JiraEnv)
    (st : CallState) (story : Story) : Except StoryError String × CallState :=
  let fields := j.build_issue_fields story.summary story.description "Story"
    j.config.jira_epic_key story.assignee_id
  match jiraCreateIssue env st fields with
  | (.ok key, st1) =>
      (.ok key,
        logInfo st1 ("Created story " ++ story.summary ++ " with key " ++ key))
  | (.httpError m, st1) =>
      (.error (.storyCreationError story.summary (some m)),
        logErr st1 ("Failed to create story " ++ story.summary))
  | (.otherError _, st1) =>
      (.error (.storyCreationError story.summary none),
        logErr st1 ("Unexpected error creating story " ++ story.summary))

/-- Loop body of the for-task iteration of `JiraEpic.create_sub_tasks_in_story`:
create each task as a Sub-task under `parent_key`; each failure is caught,
logged and appended to `failed_tasks`, and the loop continues. -/
def subTasksLoop (j : JiraEpic) (env : JiraEnv) (parent_key : String) :
    List Task → CallState → List String → CallState × List String
  | [], st, failed_tasks => (st, failed_tasks)
  | task :: rest, st, failed_tasks =>
    let fields := j.build_issue_fields task.summary task.description "Sub-task"
      parent_key task.assignee_id
    match jiraCreateIssue env st fields with
    | (.ok key, st1) =>
        subTasksLoop j env parent_key rest
          (logInfo st1 ("Created sub-task " ++ task.summary ++ " with key "
            ++ key ++ " under " ++ parent_key))
          failed_tasks
    | (.httpError _, st1) =>
        subTasksLoop j env parent_key rest
          (logErr st1 ("Failed to create sub-task " ++ task.summary))
          (failed_tasks ++ [task.summary])
    | (.otherError _, st1) =>
        subTasksLoop j env parent_key rest
          (logErr st1 ("Unexpected error creating sub-task " ++ task.summary))
          (failed_tasks ++ [task.summary])

/-- Method JiraEpic.create_sub_tasks_in_story from src/epic_manager.py: run the
loop starting from an empty `failed_tasks` list, then log a `failed/total`
warning if any task failed; returns `None` in Python, so the only outputs
are the state effects. -/
def JiraEpic.create_sub_tasks_in_story (j : JiraEpic) (env : JiraEnv)
    (all_tasks : List Task) (parent_key : String) (st : CallState) :
    CallState :=
  match subTasksLoop j env parent_key all_tasks st [] with
  | (st1, failed_tasks) =>
    if failed_tasks ≠ [] then
      logWarn st1 ("Failed to create " ++ toString failed_tasks.length ++ "/"
        ++ toString all_tasks.length ++ " tasks for " ++ parent_key)
    else st1

/-- Method JiraEpic.create_story_with_sub_tasks from src/epic_manager.py: create
the story; with no tasks (`not story.tasks`: `None` or the empty list) log a
warning and return the key; otherwise create the sub-tasks and return the
key; a `StoryCreationError` (or any other exception) is caught, logged, and
turned into `None`. -/
def JiraEpic.create_story_with_sub_tasks (j : JiraEpic) (env : JiraEnv)
    (story : Story) (st : CallState) : Option String × CallState :=
  match j.create_story_within_epic env st story with
  | (.ok parent_key, st1) =>
    match story.tasks with
    | none =>
        (some parent_key,
          logWarn st1 ("No tasks found for story " ++ story.summary))
    | some [] =>
        (some parent_key,
          logWarn st1 ("No tasks found for story " ++ story.summary))
    | some tasks =>
        (some parent_key, j.create_sub_tasks_in_story env tasks parent_key st1)
  | (.error _, st1) => (none, logErr st1 "The story was not created.")

/-- Python-dict insertion on an insertion-ordered association list:
`results[k] = v` overwrites in place when the key exists, else appends. -/
def dictInsert (d : List (String × Option String)) (k : String)
    (v : Option String) : List (String × Option String) :=
  if d.any (fun p => p.1 = k) then
    d.map (fun p => if p.1 = k then (k, v) else p)
  else
    d ++ [(k, v)]

/-- Python-dict lookup: the value bound to `k`, or `none` when the key is
absent from the mapping. -/
def dictGet : List (String × Option String) → String → Option (Option String)
  | [], _ => none
  | p :: rest, k => if p.1 = k then some p.2 else dictGet rest k

/-- Loop of the for-story iteration of `JiraEpic.create_stories`:
`results[story.summary] = create_story_with_sub_tasks(story)`. -/
def createStoriesLoop (j : JiraEpic) (env : JiraEnv) :
    List Story → List (String × Option String) → CallState →
    List (String × Option String) × CallState
  | [], results, st => (results, st)
  | story :: rest, results, st =>
    match j.create_story_with_sub_tasks env story st with
    | (issue_key, st1) =>
      createStoriesLoop j env rest (dictInsert results story.summary issue_key)
        st1

/-- Method JiraEpic.create_stories from src/epic_manager.py: run the loop from an
empty dict, then log the success-count summary, and return the mapping. -/
def JiraEpic.create_stories (j : JiraEpic) (env : JiraEnv)
    (stories : List Story) (st : CallState) :
    List (String × Option String) × CallState :=
  match createStoriesLoop j env stories [] st with
  | (results, st1) =>
    (results,
      logInfo st1 ("Created "
        ++ toString (results.filter (fun p => p.2.isSome)).length ++ "/"
        ++ toString stories.length ++ " stories successfully"))

/-- The Story-type request `create_story_within_epic` builds for `story`. -/
def storyFields (j : JiraEpic) (story : Story) : IssueFields :=
  j.build_issue_fields story.summary story.description "Story"
    j.config.jira_epic_key story.assignee_id

/-- The Sub-task-type requests `create_sub_tasks_in_story` builds for
`tasks` under `parent_key`, in order. -/
def subTaskFields (j : JiraEpic) (parent_key : String) (tasks : List Task) :
    List IssueFields :=
  tasks.map (fun t => j.build_issue_fields t.summary t.description "Sub-task"
    parent_key t.assignee_id)

/-- The summaries of the tasks whose creation call fails, given the oracle
and the call index of the first task: the expected `failed_tasks` list. -/
def expectedFailed (env : JiraEnv) : Nat → List Task → List String
  | _, [] => []
  | i, t :: rest =>
    match env i with
    | .ok _ => expectedFailed env (i + 1) rest
    | .httpError _ => t.summary :: expectedFailed env (i + 1) rest
    | .otherError _ => t.summary :: expectedFailed env (i + 1) rest

/-- The per-story outcomes of a batch, in input order, before dict
aggregation: `(summary, issue-key-or-none)` for each story. -/
def storyOutcomes (j : JiraEpic) (env : JiraEnv) :
    List Story → CallState → List (String × Option String)
  | [], _ => []
  | story :: rest, st =>
    match j.create_story_with_sub_tasks env story st with
    | (issue_key, st1) => (story.summary, issue_key) :: storyOutcomes j env rest st1

/-- The value bound to `k` by the last pair of `l` whose key is `k`, when
any: last-write-wins semantics over a pair list. -/
def lastVal : List (String × Option String) → String → Option (Option String)
  | [], _ => none
  | p :: rest, k =>
    match lastVal rest k with
    | some v => some v
    | none => if p.1 = k then some p.2 else none

/-- Concrete settings used to instantiate the theorems on closed inputs. -/
def cfg0 : Config :=
  { jira_project := "ABC", jira_epic_key := "ABC-1", jira_email := "e",
    jira_token := "t", jira_host := "h", jira_id := "default" }

/-- Concrete orchestrator over `cfg0`. -/
def j0 : JiraEpic :=
  { config := cfg0 }

/-- Oracle on which every creation call fails at the HTTP level. -/
def envBad : JiraEnv :=
  fun _ => CreateResult.httpError "boom"

/-- Oracle on which every creation call succeeds. -/
def envOk : JiraEnv :=
  fun _ => CreateResult.ok "K"

/-- Concrete story with no tasks. -/
def story0 : Story :=
  { summary := "A", description := "d", tasks := none, assignee_id := none }

/-- Concrete task whose assignee is the empty string. -/
def task1 : Task :=
  { summary := "t1", description := "td", assignee_id := some "" }

/-- Concrete story with one task and the same summary as `story0`. -/
def story1 : Story :=
  { summary := "A", description := "d", tasks := some [task1],
    assignee_id := some "x" }

end JiraEpicManager

namespace JiraEpicManager

/-- C6: Settings construction enforces that the epic key's text before the
first `-` equals the project key, failing with the configuration-error kind
at load time; `jira_project="ABC"` with `jira_epic_key="XYZ-1"` fails, and
`jira_epic_key="ABC-1"` succeeds. -/
theorem config_validates_epic_key :
    (∀ c : Config, validate_project_and_epic_key c = Except.ok c ↔
      splitHead c.jira_epic_key = c.jira_project)
    ∧ mkConfig "ABC" "XYZ-1" "e" "t" "h" "i" =
        Except.error (ConfigError.epicProjectMismatch "XYZ-1" "ABC")
    ∧ mkConfig "ABC" "ABC-1" "e" "t" "h" "i" =
        Except.ok { jira_project := "ABC", jira_epic_key := "ABC-1",
                    jira_email := "e", jira_token := "t", jira_host := "h",
                    jira_id := "i" } := by
  refine ⟨fun c => ?_, rfl, rfl⟩
  unfold validate_project_and_epic_key
  by_cases h : splitHead c.jira_epic_key = c.jira_project
  · simp [h]
  · simp [h]

@[simp]
theorem logInfo_trace (st : CallState) (m : String) :
    (logInfo st m).trace = st.trace := rfl

@[simp]
theorem logWarn_trace (st : CallState) (m : String) :
    (logWarn st m).trace = st.trace := rfl

@[simp]
theorem logErr_trace (st : CallState) (m : String) :
    (logErr st m).trace = st.trace := rfl

@[simp]
theorem logInfo_idx (st : CallState) (m : String) :
    (logInfo st m).idx = st.idx := rfl

@[simp]
theorem logWarn_idx (st : CallState) (m : String) :
    (logWarn st m).idx = st.idx := rfl

@[simp]
theorem logErr_idx (st : CallState) (m : String) :
    (logErr st m).idx = st.idx := rfl

theorem dictGet_append (d e : List (String × Option String)) (k : String) :
    dictGet (d ++ e) k =
      match dictGet d k with
      | some v => some v
      | none => dictGet e k := by
  induction d with
  | nil => simp [dictGet]
  | cons p rest ih =>
    by_cases h : p.1 = k
    · simp [dictGet, h]
    · simp [dictGet, h, ih]

theorem dictGet_eq_none_of_any_false (d : List (String × Option String))
    (k : String) (h : d.any (fun p => p.1 = k) = false) :
    dictGet d k = none := by
  induction d with
  | nil => rfl
  | cons p rest ih =>
    simp only [List.any_cons, Bool.or_eq_false_iff, decide_eq_false_iff_not] at h
    simp [dictGet, h.1, ih h.2]

theorem dictGet_map_update_ne (d : List (String × Option String))
    (k k' : String) (v : Option String) (h : k' ≠ k) :
    dictGet (d.map (fun p => if p.1 = k then (k, v) else p)) k' =
      dictGet d k' := by
  induction d with
  | nil => rfl
  | cons p rest ih =>
    by_cases hp : p.1 = k
    · have hk : ¬ (k = k') := fun hkk => h hkk.symm
      have hpk : ¬ (p.1 = k') := by rw [hp]; exact hk
      simp [dictGet, hp, hk, hpk, ih]
    · simp [dictGet, hp, ih]

theorem dictGet_map_update_self (d : List (String × Option String))
    (k : String) (v : Option String)
    (h : d.any (fun p => p.1 = k) = true) :
    dictGet (d.map (fun p => if p.1 = k then (k, v) else p)) k = some v := by
  induction d with
  | nil => simp at h
  | cons p rest ih =>
    by_cases hp : p.1 = k
    · simp [dictGet, hp]
    · simp only [List.any_cons, Bool.or_eq_true, decide_eq_true_eq] at h
      rcases h with h | h
      · exact absurd h hp
      · simp [dictGet, hp, ih h]

theorem dictGet_dictInsert (d : List (String × Option String))
    (k k' : String) (v : Option String) :
    dictGet (dictInsert d k v) k' = if k = k' then some v else dictGet d k' := by
  unfold dictInsert
  by_cases hany : d.any (fun p => p.1 = k) = true
  · by_cases hkk : k = k'
    · subst hkk
      simp [hany, dictGet_map_update_self d k v hany]
    · simp [hany, hkk, dictGet_map_update_ne d k k' v (fun h => hkk h.symm)]
  · have hfalse : d.any (fun p => p.1 = k) = false := Bool.eq_false_iff.mpr hany
    have hnone : dictGet d k = none := dictGet_eq_none_of_any_false d k hfalse
    rw [hfalse]
    simp only [Bool.false_eq_true, if_false, dictGet_append]
    by_cases hkk : k = k'
    · subst hkk
      simp [hnone, dictGet]
    · cases hd : dictGet d k' with
      | none => simp [hd, dictGet, hkk]
      | some w => simp [hd, hkk]

theorem any_fst_eq_true_iff (d : List (String × Option String)) (k : String) :
    d.any (fun p => p.1 = k) = true ↔ k ∈ d.map Prod.fst := by
  simp only [List.any_eq_true, decide_eq_true_eq, List.mem_map]

theorem map_fst_update (d : List (String × Option String)) (k : String)
    (v : Option String) :
    (d.map (fun p => if p.1 = k then (k, v) else p)).map Prod.fst =
      d.map Prod.fst := by
  induction d with
  | nil => rfl
  | cons p rest ih =>
    by_cases hp : p.1 = k
    · simp [hp, ih]
    · simp [hp, ih]

theorem map_fst_dictInsert (d : List (String × Option String)) (k : String)
    (v : Option String) :
    (dictInsert d k v).map Prod.fst =
      if d.any (fun p => p.1 = k) then d.map Prod.fst
      else d.map Prod.fst ++ [k] := by
  unfold dictInsert
  by_cases hany : d.any (fun p => p.1 = k) = true
  · rw [if_pos hany, if_pos hany]
    exact map_fst_update d k v
  · rw [if_neg hany, if_neg hany]
    simp

theorem mem_map_fst_dictInsert (d : List (String × Option String))
    (k k' : String) (v : Option String) :
    k' ∈ (dictInsert d k v).map Prod.fst ↔
      k' ∈ d.map Prod.fst ∨ k' = k := by
  rw [map_fst_dictInsert]
  by_cases hany : d.any (fun p => p.1 = k) = true
  · have hkmem := (any_fst_eq_true_iff d k).mp hany
    simp only [hany, if_true]
    constructor
    · exact Or.inl
    · rintro (h | rfl)
      · exact h
      · exact hkmem
  · have hfalse : d.any (fun p => p.1 = k) = false := Bool.eq_false_iff.mpr hany
    simp [hfalse]

theorem nodup_map_fst_dictInsert (d : List (String × Option String))
    (k : String) (v : Option String) (h : (d.map Prod.fst).Nodup) :
    ((dictInsert d k v).map Prod.fst).Nodup := by
  rw [map_fst_dictInsert]
  by_cases hany : d.any (fun p => p.1 = k) = true
  · simpa [hany] using h
  · have hk : k ∉ d.map Prod.fst := fun hmem =>
      hany ((any_fst_eq_true_iff d k).mpr hmem)
    have hfalse : d.any (fun p => p.1 = k) = false := Bool.eq_false_iff.mpr hany
    simp [hfalse, List.nodup_append, h, hk]

theorem dictGet_isSome_iff_mem (d : List (String × Option String))
    (k : String) :
    (dictGet d k).isSome = true ↔ k ∈ d.map Prod.fst := by
  induction d with
  | nil => simp [dictGet]
  | cons p rest ih =>
    by_cases hp : p.1 = k
    · simp [dictGet, hp]
    · have hk : ¬ (k = p.1) := fun hkk => hp hkk.symm
      simp [dictGet, hp, hk, ih]

theorem subTasksLoop_trace (j : JiraEpic) (env : JiraEnv) (pk : String)
    (ts : List Task) :
    ∀ (st : CallState) (failed : List String),
      (subTasksLoop j env pk ts st failed).1.trace =
        st.trace ++ subTaskFields j pk ts := by
  induction ts with
  | nil =>
    intro st failed
    simp [subTasksLoop, subTaskFields]
  | cons t rest ih =>
    intro st failed
    cases henv : env st.idx <;>
      simp [subTasksLoop, jiraCreateIssue, henv, ih, subTaskFields, logInfo,
        logErr]

theorem subTasksLoop_failed (j : JiraEpic) (env : JiraEnv) (pk : String)
    (ts : List Task) :
    ∀ (st : CallState) (failed : List String),
      (subTasksLoop j env pk ts st failed).2 =
        failed ++ expectedFailed env st.idx ts := by
  induction ts with
  | nil =>
    intro st failed
    simp [subTasksLoop, expectedFailed]
  | cons t rest ih =>
    intro st failed
    cases henv : env st.idx <;>
      simp [subTasksLoop, jiraCreateIssue, henv, ih, expectedFailed, logInfo,
        logErr]

theorem create_sub_tasks_in_story_trace (j : JiraEpic) (env : JiraEnv)
    (ts : List Task) (pk : String) (st : CallState) :
    (j.create_sub_tasks_in_story env ts pk st).trace =
      st.trace ++ subTaskFields j pk ts := by
  have ht := subTasksLoop_trace j env pk ts st []
  unfold JiraEpic.create_sub_tasks_in_story
  rcases hsub : subTasksLoop j env pk ts st [] with ⟨st1, failed⟩
  rw [hsub] at ht
  by_cases hf : failed = []
  · simpa [hf] using ht
  · simpa [hf] using ht

theorem subTaskFields_issuetype (j : JiraEpic) (pk : String) (ts : List Task)
    (f : IssueFields) (h : f ∈ subTaskFields j pk ts) :
    f.issuetype = "Sub-task" := by
  simp only [subTaskFields, List.mem_map] at h
  obtain ⟨t, _, rfl⟩ := h
  rfl

theorem create_story_with_sub_tasks_trace (j : JiraEpic) (env : JiraEnv)
    (story : Story) (st : CallState) :
    ∃ ext, (j.create_story_with_sub_tasks env story st).2.trace =
        st.trace ++ storyFields j story :: ext ∧
      ∀ f ∈ ext, f.issuetype = "Sub-task" := by
  unfold JiraEpic.create_story_with_sub_tasks JiraEpic.create_story_within_epic
  cases henv : env st.idx with
  | ok key =>
    cases hts : story.tasks with
    | none =>
      refine ⟨[], ?_, by simp⟩
      simp [jiraCreateIssue, henv, storyFields, JiraEpic.build_issue_fields]
    | some l =>
      cases l with
      | nil =>
        refine ⟨[], ?_, by simp⟩
        simp [jiraCreateIssue, henv, storyFields, JiraEpic.build_issue_fields]
      | cons t rest =>
        refine ⟨subTaskFields j key (t :: rest), ?_,
          fun f hf => subTaskFields_issuetype j key (t :: rest) f hf⟩
        simp [jiraCreateIssue, henv, create_sub_tasks_in_story_trace,
          storyFields, JiraEpic.build_issue_fields, logInfo]
  | httpError m =>
    refine ⟨[], ?_, by simp⟩
    simp [jiraCreateIssue, henv, storyFields, JiraEpic.build_issue_fields]
  | otherError m =>
    refine ⟨[], ?_, by simp⟩
    simp [jiraCreateIssue, henv, storyFields, JiraEpic.build_issue_fields]

theorem createStoriesLoop_results (j : JiraEpic) (env : JiraEnv)
    (stories : List Story) :
    ∀ (d : List (String × Option String)) (st : CallState),
      (createStoriesLoop j env stories d st).1 =
        (storyOutcomes j env stories st).foldl
          (fun acc p => dictInsert acc p.1 p.2) d := by
  induction stories with
  | nil =>
    intro d st
    simp [createStoriesLoop, storyOutcomes]
  | cons story rest ih =>
    intro d st
    simp only [createStoriesLoop, storyOutcomes]
    rcases h : j.create_story_with_sub_tasks env story st with ⟨issue_key, st1⟩
    simp [ih]

theorem storyOutcomes_map_fst (j : JiraEpic) (env : JiraEnv)
    (stories : List Story) :
    ∀ st, (storyOutcomes j env stories st).map Prod.fst =
      stories.map Story.summary := by
  induction stories with
  | nil =>
    intro st
    simp [storyOutcomes]
  | cons story rest ih =>
    intro st
    simp only [storyOutcomes]
    rcases h : j.create_story_with_sub_tasks env story st with ⟨issue_key, st1⟩
    simp [ih]

theorem foldl_dictInsert_get (l : List (String × Option String)) :
    ∀ (d : List (String × Option String)) (k : String),
      dictGet (l.foldl (fun acc p => dictInsert acc p.1 p.2) d) k =
        match lastVal l k with
        | some v => some v
        | none => dictGet d k := by
  induction l with
  | nil =>
    intro d k
    simp [lastVal]
  | cons p rest ih =>
    intro d k
    simp only [List.foldl_cons, lastVal, ih, dictGet_dictInsert]
    cases h : lastVal rest k with
    | some v => simp
    | none =>
      by_cases hk : p.1 = k
      · simp [hk]
      · simp [hk]

theorem mem_map_fst_foldl_dictInsert (l : List (String × Option String)) :
    ∀ (d : List (String × Option String)) (k : String),
      k ∈ ((l.foldl (fun acc p => dictInsert acc p.1 p.2) d).map Prod.fst) ↔
        k ∈ d.map Prod.fst ∨ k ∈ l.map Prod.fst := by
  induction l with
  | nil =>
    intro d k
    simp
  | cons p rest ih =>
    intro d k
    simp only [List.foldl_cons, ih, mem_map_fst_dictInsert, List.map_cons,
      List.mem_cons]
    tauto

theorem nodup_map_fst_foldl_dictInsert (l : List (String × Option String)) :
    ∀ d, (d.map Prod.fst).Nodup →
      ((l.foldl (fun acc p => dictInsert acc p.1 p.2) d).map Prod.fst).Nodup := by
  induction l with
  | nil =>
    intro d h
    simpa using h
  | cons p rest ih =>
    intro d h
    exact ih _ (nodup_map_fst_dictInsert d p.1 p.2 h)

theorem lastVal_isSome_of_mem (l : List (String × Option String)) (k : String)
    (h : k ∈ l.map Prod.fst) : (lastVal l k).isSome = true := by
  induction l with
  | nil => simp at h
  | cons p rest ih =>
    simp only [List.map_cons, List.mem_cons] at h
    simp only [lastVal]
    cases hl : lastVal rest k with
    | some v => simp
    | none =>
      rcases h with h | h
      · simp [h.symm]
      · have hi := ih h
        rw [hl] at hi
        simp at hi

theorem createStoriesLoop_story_trace (j : JiraEpic) (env : JiraEnv)
    (stories : List Story) :
    ∀ (d : List (String × Option String)) (st : CallState),
      (((createStoriesLoop j env stories d st).2.trace).filter
          (fun f => f.issuetype = "Story")).map IssueFields.summary =
        ((st.trace.filter (fun f => f.issuetype = "Story")).map
          IssueFields.summary) ++ stories.map Story.summary := by
  induction stories with
  | nil =>
    intro d st
    simp [createStoriesLoop]
  | cons story rest ih =>
    intro d st
    simp only [createStoriesLoop]
    obtain ⟨ext, htr, hext⟩ := create_story_with_sub_tasks_trace j env story st
    rcases h : j.create_story_with_sub_tasks env story st with ⟨issue_key, st1⟩
    rw [h] at htr
    simp only at htr
    rw [ih, htr]
    have hextf : ext.filter (fun f => decide (f.issuetype = "Story")) = [] := by
      refine List.filter_eq_nil_iff.mpr fun f hf => ?_
      have := hext f hf
      simp [this]
    have hstory : (storyFields j story).issuetype = "Story" := rfl
    simp [List.filter_append, List.filter_cons, hstory, hextf, storyFields,
      JiraEpic.build_issue_fields]

theorem create_stories_fst (j : JiraEpic) (env : JiraEnv)
    (stories : List Story) (st : CallState) :
    (j.create_stories env stories st).1 =
      (createStoriesLoop j env stories [] st).1 := by
  unfold JiraEpic.create_stories
  rcases h : createStoriesLoop j env stories [] st with ⟨res, st1⟩
  simp

theorem create_stories_trace (j : JiraEpic) (env : JiraEnv)
    (stories : List Story) (st : CallState) :
    (j.create_stories env stories st).2.trace =
      (createStoriesLoop j env stories [] st).2.trace := by
  unfold JiraEpic.create_stories
  rcases h : createStoriesLoop j env stories [] st with ⟨res, st1⟩
  simp

/-- C1: for every input list of Stories, `create_stories` attempts
story-with-subtasks creation for every Story in order (the Story-typed
requests in the trace are exactly the input summaries, in input order,
whatever the oracle answers — no early exit), and the returned mapping has
an entry for every Story processed; the function is total (never raises). -/
theorem create_stories_attempts_all (j : JiraEpic) (env : JiraEnv)
    (stories : List Story) (story : Story) :
    (story ∈ stories →
      (dictGet (j.create_stories env stories CallState.initial).1
        story.summary).isSome = true)
    ∧ (((j.create_stories env stories CallState.initial).2.trace.filter
          (fun f => f.issuetype = "Story")).map IssueFields.summary =
        stories.map Story.summary) := by
  constructor
  · intro hmem
    rw [create_stories_fst, createStoriesLoop_results,
      dictGet_isSome_iff_mem, mem_map_fst_foldl_dictInsert,
      storyOutcomes_map_fst]
    right
    exact List.mem_map.mpr ⟨story, hmem, rfl⟩
  · rw [create_stories_trace, createStoriesLoop_story_trace]
    simp [CallState.initial]

/-- Witness for C1 at a concrete input. -/
theorem create_stories_attempts_all_witness :
    story0 ∈ [story0] ∧
    (dictGet (j0.create_stories envBad [story0] CallState.initial).1
      story0.summary).isSome = true :=
  ⟨List.mem_singleton.mpr rfl,
    (create_stories_attempts_all j0 envBad [story0] story0).1
      (List.mem_singleton.mpr rfl)⟩

/-- C2: when the underlying story-create call fails (HTTP or unexpected),
`create_story_with_sub_tasks` returns an absent result for that Story
rather than propagating, and the trace gains exactly the one Story request,
so no sub-task creation is attempted. -/
theorem story_failure_absorbed (j : JiraEpic) (env : JiraEnv)
    (st : CallState) (story : Story) (m : String)
    (h : env st.idx = CreateResult.httpError m ∨
      env st.idx = CreateResult.otherError m) :
    (j.create_story_with_sub_tasks env story st).1 = none ∧
    (j.create_story_with_sub_tasks env story st).2.trace =
      st.trace ++ [storyFields j story] := by
  unfold JiraEpic.create_story_with_sub_tasks JiraEpic.create_story_within_epic
  rcases h with h | h <;>
    simp [jiraCreateIssue, h, storyFields, JiraEpic.build_issue_fields, logErr]

/-- Witness for C2 at a concrete input. -/
theorem story_failure_absorbed_witness :
    (envBad CallState.initial.idx = CreateResult.httpError "boom" ∨
      envBad CallState.initial.idx = CreateResult.otherError "boom") ∧
    (j0.create_story_with_sub_tasks envBad story0 CallState.initial).1 =
      none :=
  ⟨Or.inl rfl,
    (story_failure_absorbed j0 envBad CallState.initial story0 "boom"
      (Or.inl rfl)).1⟩

/-- C3 counterexample: in the batch `[story0]` on an oracle where every
creation call fails, `create_stories` returns the mapping `[("A", none)]`,
so the failed Story's summary "A" DOES appear as a key in the returned
result (bound to the absent value) — refuting the claim that the failed
Story's summary does not appear as a key. -/
theorem failed_story_key_present_counterexample :
    (j0.create_stories envBad [story0] CallState.initial).1 =
      [("A", none)] ∧
    "A" ∈ (j0.create_stories envBad [story0] CallState.initial).1.map
      Prod.fst := by
  constructor
  · decide
  · decide

/-- C3 amended: for every Story whose creation fails within a batch (its
last occurrence's outcome is the absent value), the caller observes the
failure as that summary being mapped to the absent value `none` in the
returned mapping — the key is present, bound to the absent value. -/
theorem failed_story_maps_to_none (j : JiraEpic) (env : JiraEnv)
    (stories : List Story) (st : CallState) (k : String)
    (h : lastVal (storyOutcomes j env stories st) k = some none) :
    dictGet (j.create_stories env stories st).1 k = some none := by
  rw [create_stories_fst, createStoriesLoop_results, foldl_dictInsert_get, h]

/-- Witness for the amended C3 at a concrete input. -/
theorem failed_story_maps_to_none_witness :
    lastVal (storyOutcomes j0 envBad [story0] CallState.initial) "A" =
      some none ∧
    dictGet (j0.create_stories envBad [story0] CallState.initial).1 "A" =
      some none :=
  ⟨by decide,
    failed_story_maps_to_none j0 envBad [story0] CallState.initial "A"
      (by decide)⟩

/-- C4: `create_sub_tasks_in_story` attempts every Task in the given order
(the trace gains exactly one Sub-task request per Task, whatever the oracle
answers — no short-circuit), records each failing Task's summary in the
per-call failure list, and returns no caller-visible failure signal, so the
enclosing `create_story_with_sub_tasks` still returns the non-absent Story
identifier whenever the story create succeeded, regardless of sub-task
failures. -/
theorem sub_task_failures_tolerated (j : JiraEpic) (env : JiraEnv)
    (pk : String) (tasks : List Task) (st : CallState) (story : Story)
    (key : String) :
    ((subTasksLoop j env pk tasks st []).1.trace =
      st.trace ++ subTaskFields j pk tasks)
    ∧ ((subTasksLoop j env pk tasks st []).2 =
      expectedFailed env st.idx tasks)
    ∧ (env st.idx = CreateResult.ok key → story.tasks = some tasks →
        (j.create_story_with_sub_tasks env story st).1 = some key) := by
  refine ⟨subTasksLoop_trace j env pk tasks st [],
    by simpa using subTasksLoop_failed j env pk tasks st [], ?_⟩
  intro henv hts
  unfold JiraEpic.create_story_with_sub_tasks JiraEpic.create_story_within_epic
  cases tasks with
  | nil => simp [jiraCreateIssue, henv, hts]
  | cons t rest => simp [jiraCreateIssue, henv, hts]

/-- Witness for C4 at a concrete input: the oracle fails every sub-task
call, yet the Story identifier is still returned. -/
theorem sub_task_failures_tolerated_witness :
    (subTasksLoop j0 envBad "K" [task1] CallState.initial []).2 =
      expectedFailed envBad CallState.initial.idx [task1] ∧
    envOk CallState.initial.idx = CreateResult.ok "K" ∧
    story1.tasks = some [task1] ∧
    (j0.create_story_with_sub_tasks envOk story1 CallState.initial).1 =
      some "K" :=
  ⟨(sub_task_failures_tolerated j0 envBad "K" [task1] CallState.initial
      story1 "K").2.1,
    rfl, rfl,
    (sub_task_failures_tolerated j0 envOk "K" [task1] CallState.initial
      story1 "K").2.2 rfl rfl⟩

/-- C5: `create_story_within_epic` either returns the tracker's new issue
key, or raises `StoryCreationError`: with the original error on an
HTTP-level failure, without it on any other failure; every oracle outcome
is covered, so no failure is swallowed. -/
theorem story_create_translates_errors (j : JiraEpic) (env : JiraEnv)
    (st : CallState) (story : Story) (k m : String) :
    (env st.idx = CreateResult.ok k →
      (j.create_story_within_epic env st story).1 = Except.ok k)
    ∧ (env st.idx = CreateResult.httpError m →
      (j.create_story_within_epic env st story).1 =
        Except.error (StoryError.storyCreationError story.summary (some m)))
    ∧ (env st.idx = CreateResult.otherError m →
      (j.create_story_within_epic env st story).1 =
        Except.error (StoryError.storyCreationError story.summary none)) := by
  refine ⟨fun h => ?_, fun h => ?_, fun h => ?_⟩ <;>
    · unfold JiraEpic.create_story_within_epic
      simp [jiraCreateIssue, h]

/-- Witness for C5 at a concrete input. -/
theorem story_create_translates_errors_witness :
    envBad CallState.initial.idx = CreateResult.httpError "boom" ∧
    (j0.create_story_within_epic envBad CallState.initial story0).1 =
      Except.error (StoryError.storyCreationError "A" (some "boom")) :=
  ⟨rfl,
    (story_create_translates_errors j0 envBad CallState.initial story0
      "k" "boom").2.1 rfl⟩

/-- C7: orchestrator construction succeeds only when the single epic read
succeeded, and any failure of that read (not-found, auth, network) is
collapsed into the epic-not-found error and raised, aborting construction. -/
theorem init_requires_verified_epic (c : Config) (r : ReadResult) :
    (∀ j : JiraEpic, JiraEpic.init c r = Except.ok j → r = ReadResult.found)
    ∧ (r ≠ ReadResult.found →
        JiraEpic.init c r =
          Except.error (EpicError.epicNotFound c.jira_epic_key)) := by
  cases r <;> simp [JiraEpic.init, verify_epic_exists]

/-- Witness for C7 at concrete inputs. -/
theorem init_requires_verified_epic_witness :
    JiraEpic.init cfg0 ReadResult.found = Except.ok j0 ∧
    ReadResult.notFound ≠ ReadResult.found ∧
    JiraEpic.init cfg0 ReadResult.notFound =
      Except.error (EpicError.epicNotFound "ABC-1") :=
  ⟨rfl, by decide,
    (init_requires_verified_epic cfg0 ReadResult.notFound).2 (by decide)⟩

/-- C8: for a Story whose task list is absent or empty, after a successful
story create `create_story_with_sub_tasks` returns the created key, logs
the no-tasks warning, and issues zero sub-task requests (the trace gains
exactly the one Story request). -/
theorem no_tasks_warns_and_returns (j : JiraEpic) (env : JiraEnv)
    (st : CallState) (story : Story) (key : String)
    (henv : env st.idx = CreateResult.ok key)
    (hts : story.tasks = none ∨ story.tasks = some []) :
    (j.create_story_with_sub_tasks env story st).1 = some key ∧
    (j.create_story_with_sub_tasks env story st).2.trace =
      st.trace ++ [storyFields j story] ∧
    LogEvent.warn ("No tasks found for story " ++ story.summary) ∈
      (j.create_story_with_sub_tasks env story st).2.logs := by
  unfold JiraEpic.create_story_with_sub_tasks JiraEpic.create_story_within_epic
  rcases hts with hts | hts <;>
    simp [jiraCreateIssue, henv, hts, storyFields, JiraEpic.build_issue_fields,
      logInfo, logWarn]

/-- Witness for C8 at a concrete input. -/
theorem no_tasks_warns_and_returns_witness :
    envOk CallState.initial.idx = CreateResult.ok "K" ∧
    (story0.tasks = none ∨ story0.tasks = some []) ∧
    (j0.create_story_with_sub_tasks envOk story0 CallState.initial).1 =
      some "K" :=
  ⟨rfl, Or.inl rfl,
    (no_tasks_warns_and_returns j0 envOk CallState.initial story0 "K" rfl
      (Or.inl rfl)).1⟩

/-- C9: when an item's assignee is absent or the empty string the built
request's assignee is the configured default, and the assignee field is
always present and is either the item's value or the default (Python `or`
treats the empty string like absent). -/
theorem assignee_defaulting (j : JiraEpic) (a : Option String)
    (s d it pk : String) :
    ((a = none ∨ a = some "") →
      (j.build_issue_fields s d it pk a).assignee = j.config.jira_id)
    ∧ ((j.build_issue_fields s d it pk a).assignee = j.config.jira_id ∨
        a = some ((j.build_issue_fields s d it pk a).assignee)) := by
  constructor
  · rintro (rfl | rfl) <;>
      simp [JiraEpic.build_issue_fields, JiraEpic.get_assignee_id]
  · cases a with
    | none => exact Or.inl rfl
    | some str =>
      by_cases hs : str = ""
      · exact Or.inl (by
          simp [JiraEpic.build_issue_fields, JiraEpic.get_assignee_id, hs])
      · exact Or.inr (by
          simp [JiraEpic.build_issue_fields, JiraEpic.get_assignee_id, hs])

/-- Witness for C9 at a concrete input: the empty-string assignee falls
back to the configured default. -/
theorem assignee_defaulting_witness :
    ((some "" : Option String) = none ∨ (some "" : Option String) = some "")
    ∧ (j0.build_issue_fields "s" "d" "Story" "P" (some "")).assignee =
        cfg0.jira_id :=
  ⟨Or.inr rfl,
    (assignee_defaulting j0 (some "") "s" "d" "Story" "P").1 (Or.inr rfl)⟩

/-- C10: the mapping returned by `create_stories` has exactly one entry per
distinct summary (keys are duplicate-free and are exactly the input
summaries), each bound to the outcome of the last occurrence of that
summary in input order (last-write-wins); concretely, a two-story batch
with a duplicated summary yields a one-entry mapping. -/
theorem duplicate_summaries_last_write_wins (j : JiraEpic) (env : JiraEnv)
    (stories : List Story) (st : CallState) :
    ((j.create_stories env stories st).1.map Prod.fst).Nodup
    ∧ (∀ k, k ∈ (j.create_stories env stories st).1.map Prod.fst ↔
        k ∈ stories.map Story.summary)
    ∧ (∀ k, dictGet (j.create_stories env stories st).1 k =
        lastVal (storyOutcomes j env stories st) k)
    ∧ (j0.create_stories envOk [story0, story1] CallState.initial).1.length
        = 1 := by
  refine ⟨?_, fun k => ?_, fun k => ?_, by decide⟩
  · rw [create_stories_fst, createStoriesLoop_results]
    exact nodup_map_fst_foldl_dictInsert _ [] (by simp)
  · rw [create_stories_fst, createStoriesLoop_results,
      mem_map_fst_foldl_dictInsert, storyOutcomes_map_fst]
    simp
  · rw [create_stories_fst, createStoriesLoop_results, foldl_dictInsert_get]
    cases h : lastVal (storyOutcomes j env stories st) k <;> simp [dictGet]

end JiraEpicManager
